import Mathlib

/-!
# Verification of the slurminade function-dispatch and bundling core

This file is a shallow embedding, in Lean 4, of the parts of the
`slurminade` Python package that the verified properties talk about:

* `src/slurminade/options.py`     — `SlurmOptions` (hash/equality of option sets)
* `src/slurminade/bundling.py`    — `TaskBuffer` and `JobBundling.flush`
* `src/slurminade/guard.py`       — `_DispatchGuard` and `BatchGuard`
* `src/slurminade/function_map.py`— `FunctionMap.register` / `get_id`
* `src/slurminade/function.py`    — `SlurmFunction.wait_for`
* `src/slurminade/execute_cmds.py`— `create_slurminade_command`
* `src/slurminade/execute.py`     — `parse_args` (node bootstrap)
* `src/slurminade/dispatcher.py`  — `TestDispatcher._cleanup`

Conventions of the embedding:

* Python `dict`s appear as insertion-ordered association lists.
* Python exceptions appear as `Except`; a function that can raise returns
  `Except ErrMsg …`, and mutation of `self` is explicit state passing
  (the state is returned unchanged on the error path exactly when the
  Python code raises before the mutation).
* CPython's `hash` for `int` and for tuples is modelled exactly
  (Mersenne-prime reduction for integers, the xxHash-style combiner for
  tuples); the per-process seeded string hash is modelled by a fixed
  deterministic stand-in — no theorem below depends on its specific
  values, only on it being a function of the string.
-/

namespace Slurminade

/-! ## Python hash model

CPython (64-bit) details used by `SlurmOptions.__hash__`:

* `hash(n)` for an `int` reduces `n` modulo the Mersenne prime `2^61 - 1`
  (negatives hash to the negation of the hash of their absolute value) and
  maps a result of `-1` to `-2`.  In particular `hash(-1) == hash(-2) == -2`.
* `hash(t)` for a tuple is the xxHash-style combination of the hashes of the
  elements (CPython ≥ 3.8), reduced to a signed 64-bit value, with a result
  equal to unsigned `-1` replaced by `1546275796`.
* `hash(s)` for a string is deterministic within a process but seeded per
  process; `pyHashStr` below is a deterministic stand-in.
-/

/-- CPython's `hash` on `int`: reduction modulo the Mersenne prime
`2^61 - 1`, negatives mirrored, and `-1` mapped to `-2`. -/
def pyHashInt (n : Int) : Int :=
  let M : Int := 2305843009213693951
  let h : Int := if 0 ≤ n then n % M else -((-n) % M)
  if h = -1 then -2 else h

/-- CPython's `hash` on `bool`: `hash(False) = 0`, `hash(True) = 1`. -/
def pyHashBool (b : Bool) : Int := if b then 1 else 0

/-- Stand-in for CPython's per-process seeded string hash: a fixed
deterministic fold over the characters, kept inside `[0, 2^61 - 1)`.
No theorem depends on its specific values. -/
def pyHashStr (s : String) : Int :=
  let M : Nat := 2305843009213693951
  Int.ofNat (s.data.foldl (fun h c => (h * 31 + c.toNat) % M) 7)

/-- Reinterpret a Python hash value (a signed 64-bit integer) as the
unsigned 64-bit word CPython's tuple combiner works on. -/
def toU64 (n : Int) : Nat := (n % 18446744073709551616).toNat

/-- Signed reinterpretation of an unsigned 64-bit word. -/
def ofU64 (u : Nat) : Int :=
  if u < 9223372036854775808 then Int.ofNat u
  else Int.ofNat u - 18446744073709551616

/-- CPython's tuple hash (≥ 3.8): the xxHash-style combination of the
element hashes, on 64-bit unsigned arithmetic, with the final signed value
`-1` replaced by `1546275796`.  It is a function of the element hashes only. -/
def pyHashTuple (lanes : List Int) : Int :=
  let U : Nat := 18446744073709551616
  let P1 : Nat := 11400714785074694791
  let P2 : Nat := 14029467366897019727
  let P5 : Nat := 2870177450012600261
  let acc : Nat := lanes.foldl
    (fun acc lane =>
      let a1 := (acc + toU64 lane * P2) % U
      let a2 := (((a1 <<< 31) % U) ||| (a1 >>> 33))
      (a2 * P1) % U)
    P5
  let acc : Nat := (acc + Nat.xor lanes.length (Nat.xor P5 3527539)) % U
  let h := ofU64 acc
  if h = -1 then 1546275796 else h

/-! ## `SlurmOptions` (src/slurminade/options.py)

`SlurmOptions` is a `dict` subclass.  An option value is a scalar
(int, bool, string) or a nested mapping; this is the hashable fragment of
the JSON-like value model (a `list`-valued option would make `hash((k, v))`
raise `TypeError` in Python and is outside the data model the spec gives
for `Options`).  Mappings are insertion-ordered; a nested mapping may have
been built as a plain `dict` or as a `SlurmOptions` — `_items` converts
either with `SlurmOptions(**v)` (the `isinstance(v, dict)` test accepts
both and the conversion preserves the entries), so the embedding does not
distinguish the two. -/

mutual

/-- A Python value usable as a `SlurmOptions` entry value. -/
inductive OptVal where
  | int (n : Int)
  | bool (b : Bool)
  | str (s : String)
  | dict (entries : OptEntries)
  deriving DecidableEq

/-- An insertion-ordered Python mapping `str -> OptVal`. -/
inductive OptEntries where
  | nil
  | cons (key : String) (val : OptVal) (rest : OptEntries)
  deriving DecidableEq

end

namespace OptEntries

/-- The entries as a Lean list. -/
def toList : OptEntries → List (String × OptVal)
  | .nil => []
  | .cons k v r => (k, v) :: toList r

/-- Build a mapping from a Lean list of entries. -/
def ofList : List (String × OptVal) → OptEntries
  | [] => .nil
  | (k, v) :: r => .cons k v (ofList r)

theorem toList_ofList (l : List (String × OptVal)) : (ofList l).toList = l := by
  induction l with
  | nil => rfl
  | cons p r ih => cases p; simp [ofList, toList, ih]

/-- Number of entries. -/
def length (es : OptEntries) : Nat := es.toList.length

end OptEntries

mutual

/-- `hash(v)` for a value appearing inside `SlurmOptions`: ints, bools and
strings hash as in CPython; a nested mapping is converted to `SlurmOptions`
by `_items` and hashed with `SlurmOptions.__hash__`
(src/slurminade/options.py lines 11-18). -/
def optValHash : OptVal → Int
  | .int n => pyHashInt n
  | .bool b => pyHashBool b
  | .str s => pyHashStr s
  | .dict es =>
      pyHashTuple ((entryHashes es).insertionSort (· ≤ ·))

/-- The list `[hash((k, v)) for k, v in self._items()]` of
`SlurmOptions.__hash__`: each entry hashes as the 2-tuple of the key hash
and the value hash. -/
def entryHashes : OptEntries → List Int
  | .nil => []
  | .cons k v r => pyHashTuple [pyHashStr k, optValHash v] :: entryHashes r

end

/-- `SlurmOptions.__hash__` (src/slurminade/options.py lines 17-18):
`hash(tuple(sorted(hash((k, v)) for k, v in self._items())))`. -/
def slurmOptionsHash (o : OptEntries) : Int :=
  pyHashTuple ((entryHashes o).insertionSort (· ≤ ·))

/-- `SlurmOptions.__eq__` (src/slurminade/options.py lines 20-23) for two
`SlurmOptions` operands: `hash(self) == hash(other)`.  (A non-`SlurmOptions`
operand compares `False`; both operands here are option sets.) -/
def slurmOptionsEq (a b : OptEntries) : Bool :=
  slurmOptionsHash a == slurmOptionsHash b

/-- Kernel-computable lexicographic comparison of key characters (used
only to fix *a* canonical entry order; nothing depends on which total
order it is). -/
def lexLeChars : List Char → List Char → Bool
  | [], _ => true
  | _ :: _, [] => false
  | a :: as, b :: bs =>
      if a.toNat < b.toNat then true
      else if b.toNat < a.toNat then false
      else lexLeChars as bs

/-- Key order for the canonical form of a mapping. -/
def keyLe (a b : String) : Bool := lexLeChars a.data b.data

mutual

/-- Recursive canonical form of an option value: nested mappings are
canonicalized and their entries sorted by key.  Two values have identical
key/value content (in the sense of the spec's recursive structural
equality) exactly when their canonical forms are equal. -/
def canonVal : OptVal → OptVal
  | .dict es => .dict (OptEntries.ofList
      (((canonEntries es).toList).insertionSort (fun p q => keyLe p.1 q.1 = true)))
  | v => v

/-- Canonicalize every value of a mapping (keeping entry order). -/
def canonEntries : OptEntries → OptEntries
  | .nil => .nil
  | .cons k v r => .cons k (canonVal v) (canonEntries r)

end

/-- Canonical form of an option set: values canonicalized recursively,
entries sorted by key. -/
def canonOptions (o : OptEntries) : OptEntries :=
  OptEntries.ofList (((canonEntries o).toList).insertionSort (fun p q => keyLe p.1 q.1 = true))

/-- Identical key/value content, compared recursively through nested
mappings and irrespective of entry order: equal canonical forms. -/
def contentEq (a b : OptEntries) : Bool := canonOptions a == canonOptions b

/-! ### Hash invariance under canonicalization -/

/-- Sorting is a canonical form: permuted lists of hashes sort equally. -/
theorem insertionSort_eq_of_perm {l l' : List Int} (h : l.Perm l') :
    l.insertionSort (· ≤ ·) = l'.insertionSort (· ≤ ·) := by
  apply List.eq_of_perm_of_sorted
    (r := fun a b : Int => a ≤ b)
  · exact (List.perm_insertionSort _ l).trans (h.trans (List.perm_insertionSort _ l').symm)
  · exact List.sorted_insertionSort _ l
  · exact List.sorted_insertionSort _ l'

theorem entryHashes_toList : (es : OptEntries) →
    entryHashes es
      = es.toList.map (fun kv => pyHashTuple [pyHashStr kv.1, optValHash kv.2])
  | .nil => rfl
  | .cons _ _ r => by simp [entryHashes, OptEntries.toList, entryHashes_toList r]

theorem entryHashes_ofList (l : List (String × OptVal)) :
    entryHashes (OptEntries.ofList l)
      = l.map (fun kv => pyHashTuple [pyHashStr kv.1, optValHash kv.2]) := by
  rw [entryHashes_toList, OptEntries.toList_ofList]

mutual

/-- Canonicalizing a value does not change its Python hash: the hash of a
mapping already sorts the entry hashes, so recursive key-sorting of nested
mappings is invisible to it. -/
theorem optValHash_canonVal : (v : OptVal) → optValHash (canonVal v) = optValHash v
  | .int _ => rfl
  | .bool _ => rfl
  | .str _ => rfl
  | .dict es => by
      show pyHashTuple _ = pyHashTuple _
      have hperm :
          List.Perm
            (entryHashes (OptEntries.ofList
              (((canonEntries es).toList).insertionSort (fun p q => keyLe p.1 q.1 = true))))
            (entryHashes es) := by
        rw [entryHashes_ofList, entryHashes_toList es,
          ← entryHashes_canonEntries_toList es]
        exact (List.perm_insertionSort _ _).map _
      rw [insertionSort_eq_of_perm hperm]

/-- Entry-hash lists before and after value canonicalization agree
pointwise. -/
theorem entryHashes_canonEntries_toList : (es : OptEntries) →
    ((canonEntries es).toList).map
        (fun kv => pyHashTuple [pyHashStr kv.1, optValHash kv.2])
      = es.toList.map (fun kv => pyHashTuple [pyHashStr kv.1, optValHash kv.2])
  | .nil => rfl
  | .cons k v r => by
      simp only [canonEntries, OptEntries.toList, List.map_cons,
        optValHash_canonVal v, entryHashes_canonEntries_toList r]

end

theorem entryHashes_canonEntries (es : OptEntries) :
    entryHashes (canonEntries es) = entryHashes es := by
  rw [entryHashes_toList, entryHashes_toList, entryHashes_canonEntries_toList]

/-- Hash is invariant under full canonicalization of an option set. -/
theorem slurmOptionsHash_canonOptions (o : OptEntries) :
    slurmOptionsHash (canonOptions o) = slurmOptionsHash o := by
  unfold slurmOptionsHash canonOptions
  have hperm :
      List.Perm
        (entryHashes (OptEntries.ofList
          (((canonEntries o).toList).insertionSort (fun p q => keyLe p.1 q.1 = true))))
        (entryHashes o) := by
    rw [entryHashes_ofList, entryHashes_toList o,
      ← entryHashes_canonEntries_toList o]
    exact (List.perm_insertionSort _ _).map _
  rw [insertionSort_eq_of_perm hperm]

/-- Identical content forces identical `SlurmOptions.__hash__` values. -/
theorem slurmOptionsHash_eq_of_contentEq {a b : OptEntries}
    (h : contentEq a b = true) : slurmOptionsHash a = slurmOptionsHash b := by
  have hc : canonOptions a = canonOptions b := by
    simpa [contentEq] using h
  rw [← slurmOptionsHash_canonOptions a, ← slurmOptionsHash_canonOptions b, hc]

/-- Identical content forces `SlurmOptions.__eq__` to return `True`. -/
theorem slurmOptionsEq_of_contentEq {a b : OptEntries}
    (h : contentEq a b = true) : slurmOptionsEq a b = true := by
  simp [slurmOptionsEq, slurmOptionsHash_eq_of_contentEq h]

/-! ## Bundling layer (src/slurminade/bundling.py)

`TaskBuffer` is `defaultdict(list)` keyed by `(entry_point, options)`; the
embedding is an insertion-ordered association list from keys `K` to the
buffered calls `List C` (Python `dict` keys are unique; theorems that need
it state it).  `JobBundling.flush` (lines 81-99) iterates
`self._tasks.items()` — which skips keys whose task list is empty
(`TaskBuffer.items`, lines 48-51) — and, per key, runs

    while tasks:
        job_ref = self.subdispatcher(tasks[: self.max_size], opt, entry_point)
        job_refs.append(job_ref)
        tasks = tasks[self.max_size :]

then clears the buffer and returns `job_refs`.  The `while` loop is
modelled with explicit fuel: with `max_size = 0` the Python loop never
terminates, which the model reports as `none`. -/

/-- The per-key `while tasks:` loop of `JobBundling.flush`: slice off
`tasks[:k]`, submit it, continue with `tasks[k:]`; `none` when the fuel is
exhausted (the Python loop diverges for `k = 0`). -/
def whileChunks {α : Type} (k : Nat) : Nat → List α → Option (List (List α))
  | _, [] => some []
  | 0, _ :: _ => none
  | fuel + 1, x :: xs =>
      (whileChunks k fuel ((x :: xs).drop k)).map (((x :: xs).take k) :: ·)

/-- The sequence of `(key, chunk)` submissions one `flush()` performs, in
order: every key with a nonempty task list contributes its chunks. -/
def flushPlan {K C : Type} (k : Nat) : List (K × List C) → Option (List (K × List C))
  | [] => some []
  | (key, tasks) :: rest =>
      if tasks.isEmpty then flushPlan k rest
      else do
        let chunks ← whileChunks k tasks.length tasks
        let tail ← flushPlan k rest
        pure (chunks.map (fun c => (key, c)) ++ tail)

/-! ### Submission loop of `flush` -/

/-- The submission loop of `JobBundling.flush`: submit the planned chunks
in order through the sub-dispatcher; a raised exception propagates at the
first failing submission (later chunks are not submitted). -/
def submitAll {P E R : Type} (sub : P → Except E R) : List P → Except E (List R)
  | [] => .ok []
  | p :: rest =>
      match sub p with
      | .error e => .error e
      | .ok r =>
          match submitAll sub rest with
          | .error e => .error e
          | .ok rs => .ok (r :: rs)

/-- The chunks a run of the submission loop managed to submit before the
first failure (all of them, when nothing fails). -/
def submittedPrefix {P E R : Type} (sub : P → Except E R) : List P → List P
  | [] => []
  | p :: rest =>
      match sub p with
      | .ok _ => p :: submittedPrefix sub rest
      | .error _ => []

/-- One call of `JobBundling.flush` with sub-dispatcher `sub`
(`self.subdispatcher(...)`, which may raise): submissions happen in plan
order and stop at the first raised error; `self._tasks.clear()` runs only
after the loop completed, so the buffer survives unchanged when a
submission raises.  Returns `(flush result, buffer afterwards)`. -/
def flushOnce {K C E R : Type} (sub : K × List C → Except E R) (k : Nat)
    (buf : List (K × List C)) :
    Option (Except E (List R) × List (K × List C)) := do
  let plan ← flushPlan k buf
  match submitAll sub plan with
  | .ok refs => pure (.ok refs, [])
  | .error e => pure (.error e, buf)

/-! ### Chunking lemmas -/

theorem whileChunks_spec {α : Type} {k : Nat} (hk : 1 ≤ k) :
    ∀ (fuel : Nat) (l : List α), l.length ≤ fuel →
      ∃ chunks, whileChunks k fuel l = some chunks ∧
        chunks.flatten = l ∧
        (∀ c ∈ chunks, c.length ≤ k ∧ c ≠ []) ∧
        chunks.length = (l.length + k - 1) / k := by
  obtain ⟨k', rfl⟩ : ∃ k', k = k' + 1 := ⟨k - 1, by omega⟩
  intro fuel
  induction fuel with
  | zero =>
      intro l hl
      match l, hl with
      | [], _ =>
          refine ⟨[], rfl, rfl, by simp, ?_⟩
          simpa using (Nat.div_eq_of_lt (Nat.lt_succ_self k')).symm
  | succ fuel ih =>
      intro l hl
      match l with
      | [] =>
          refine ⟨[], rfl, rfl, by simp, ?_⟩
          simpa using (Nat.div_eq_of_lt (Nat.lt_succ_self k')).symm
      | x :: xs =>
          have hdrop : ((x :: xs).drop (k' + 1)).length ≤ fuel := by
            simp only [List.length_drop, List.length_cons]
            simp only [List.length_cons] at hl
            omega
          obtain ⟨chunks, hrun, hjoin, hbound, hcount⟩ :=
            ih ((x :: xs).drop (k' + 1)) hdrop
          refine ⟨(x :: xs).take (k' + 1) :: chunks, ?_, ?_, ?_, ?_⟩
          · simp only [List.drop_succ_cons] at hrun
            simp [whileChunks, hrun]
          · simp [hjoin]
          · intro c hc
            rcases List.mem_cons.mp hc with hc | hc
            · subst hc
              refine ⟨by simp [List.length_take], by simp [List.take]⟩
            · exact hbound c hc
          · simp only [List.length_cons, List.length_drop, List.length_cons] at hcount ⊢
            rw [hcount]
            rcases Nat.lt_or_ge (xs.length + 1) (k' + 1) with hlt | hge
            · have h1 : xs.length + 1 - (k' + 1) = 0 := by omega
              rw [h1]
              rw [Nat.div_eq_of_lt (by omega : 0 + (k' + 1) - 1 < k' + 1)]
              have := Nat.div_eq_of_lt_le
                (by omega : 1 * (k' + 1) ≤ xs.length + 1 + (k' + 1) - 1)
                (by omega : xs.length + 1 + (k' + 1) - 1 < (1 + 1) * (k' + 1))
              omega
            · have h2 : (xs.length + 1 - (k' + 1) + (k' + 1) - 1 + (k' + 1)) / (k' + 1)
                  = (xs.length + 1 - (k' + 1) + (k' + 1) - 1) / (k' + 1) + 1 :=
                Nat.add_div_right _ (by omega)
              have h3 : xs.length + 1 - (k' + 1) + (k' + 1) - 1 + (k' + 1)
                  = xs.length + 1 + (k' + 1) - 1 := by omega
              rw [h3] at h2
              omega

/-! ## Guard subsystem (src/slurminade/guard.py) -/

/-- `_DispatchGuard` state (src/slurminade/guard.py lines 61-76):
`max_calls` is `None` for unlimited or an integer; `remaining_calls` is set
to `max_calls` by `__init__` and `set_limit`.  The embedding stores
`remaining` as an `Int` that is only ever read when `max_calls` is a
nonzero integer — the Python constructors always set both fields together,
so `none.getD 0` never reaches a comparison. -/
structure DispatchGuardState where
  maxCalls : Option Int
  remaining : Int
  deriving DecidableEq, Repr

/-- `_DispatchGuard.__init__(max_calls)`. -/
def guardInit (n : Option Int) : DispatchGuardState := ⟨n, n.getD 0⟩

/-- `_DispatchGuard.set_limit(n)` (also `set_dispatch_limit`). -/
def setLimit (_s : DispatchGuardState) (n : Option Int) : DispatchGuardState :=
  ⟨n, n.getD 0⟩

/-- The `TooManyDispatchesError` raised by the guard; it carries the
configured limit (`self.n_calls = max_calls`). -/
structure TooManyDispatches where
  nCalls : Int
  deriving DecidableEq, Repr

/-- `TooManyDispatchesError.__str__`: the message names the configured
limit. -/
def tooManyMessage (e : TooManyDispatches) : String :=
  "Exceeded the dispatch limit of " ++ toString e.nCalls ++
  " calls. This limit has been introduced to prevent you from overloading your slurm environment in case of a bug. You can increase it using `set_dispatch_limit`."

/-- `_DispatchGuard.__call__` (src/slurminade/guard.py lines 66-72):
`if not self.max_calls: return None` — so `None` *and* `0` mean unlimited
(`0` is falsy); then a non-positive remaining count raises
`TooManyDispatchesError(self.max_calls)`, else the count is decremented
and returned. -/
def guardCall (s : DispatchGuardState) :
    Except TooManyDispatches (Option Int) × DispatchGuardState :=
  match s.maxCalls with
  | none => (.ok none, s)
  | some m =>
      if m = 0 then (.ok none, s)
      else if s.remaining ≤ 0 then (.error ⟨m⟩, s)
      else (.ok (some (s.remaining - 1)), ⟨s.maxCalls, s.remaining - 1⟩)

/-- `n` successive dispatch attempts through the guard, collecting each
attempt's outcome in order. -/
def guardCalls (s : DispatchGuardState) : Nat → DispatchGuardState × List (Except TooManyDispatches (Option Int))
  | 0 => (s, [])
  | n + 1 =>
      let (r, s') := guardCall s
      let (s'', rs) := guardCalls s' n
      (s'', r :: rs)

/-- `BatchGuard` state (src/slurminade/guard.py lines 92-124):
`_num_of_flushes` is per instance, `already_warned` is a class variable
(global across instances; `disable_warning_on_repeated_flushes` sets it). -/
structure BatchGuardState where
  numFlushes : Nat
  alreadyWarned : Bool
  deriving DecidableEq, Repr

/-- A fresh `BatchGuard` under the global suppression flag `suppressed`. -/
def batchGuardInit (suppressed : Bool) : BatchGuardState := ⟨0, suppressed⟩

/-- `BatchGuard.report_flush(num_tasks)` (src/slurminade/guard.py lines
118-124): empty flushes are ignored; the second counted flush emits the
one-time warning unless suppressed.  Returns the new state and whether the
warning was emitted by this call. -/
def reportFlush (s : BatchGuardState) (numTasks : Nat) : BatchGuardState × Bool :=
  if numTasks = 0 then (s, false)
  else
    let n := s.numFlushes + 1
    if n = 2 ∧ s.alreadyWarned = false then (⟨n, true⟩, true)
    else (⟨n, s.alreadyWarned⟩, false)

/-! ## Function registry (src/slurminade/function_map.py) -/

/-- Association-list lookup (Python `dict` membership / indexing). -/
def assocLookup {β : Type} : List (String × β) → String → Option β
  | [], _ => none
  | (k, v) :: rest, key => if k = key then some v else assocLookup rest key

/-- Association-list update (Python `d[k] = v`: overwrite in place, else
append preserving insertion order). -/
def assocSet {β : Type} : List (String × β) → String → β → List (String × β)
  | [], key, v => [(key, v)]
  | (k, w) :: rest, key, v =>
      if k = key then (k, v) :: rest else (k, w) :: assocSet rest key v

/-- Association-list removal (Python `del d[k]` / `Path.unlink`). -/
def assocErase {β : Type} : List (String × β) → String → List (String × β)
  | [], _ => []
  | (k, v) :: rest, key =>
      if k = key then rest else (k, v) :: assocErase rest key

/-- `FunctionMap.check_compatibility` (src/slurminade/function_map.py
lines 55-66): rejects unnamed functions, lambdas, and functions without a
declaring file. -/
def checkCompatibility (file name : String) : Except String Unit :=
  if name = "" ∨ name = "<lambda>" ∨ file = "" then
    .error "Can only slurmify proper functions."
  else .ok ()

/-- `FunctionMap.get_id` (src/slurminade/function_map.py lines 30-46):
`"<path>:<name>"`, with the `"<string>"` placeholder a replayed source
reports for its declaring file replaced by the worker's entry point
(failing when none is set).  `Path(file).resolve()` is modelled as the
identity: the embedding's paths are already absolute and normalized. -/
def getId (entryPoint : Option String) (file name : String) : Except String String :=
  if file = "<string>" then
    match entryPoint with
    | none => .error "No entry point known."
    | some ep => .ok (ep ++ ":" ++ name)
  else .ok (file ++ ":" ++ name)

/-- `FunctionMap.register` (src/slurminade/function_map.py lines 70-82):
compute the identity, fail with the duplicate-identity error when it is
already registered and overwriting is not allowed — *before* the mapping
is touched — else store the function under the identity.  Returns the
outcome together with the registry afterwards. -/
def registerFunc {β : Type} (reg : List (String × β)) (entryPoint : Option String)
    (file name : String) (f : β) (allowOverwrite : Bool) :
    Except String String × List (String × β) :=
  match checkCompatibility file name with
  | .error e => (.error e, reg)
  | .ok _ =>
      match getId entryPoint file name with
      | .error e => (.error e, reg)
      | .ok funcId =>
          if (assocLookup reg funcId).isSome ∧ allowOverwrite = false then
            (.error "Multiple function definitions!", reg)
          else (.ok funcId, assocSet reg funcId f)

/-! ## Dependency chaining (src/slurminade/function.py, options.py) -/

/-- `":".join(str(jid) for jid in job_ids)` — Python renders a missing id
(`None`) as the string `"None"` and a negative id with its sign. -/
def joinIds (jobIds : List (Option Int)) : String :=
  String.intercalate ":" (jobIds.map fun j =>
    match j with
    | none => "None"
    | some n => toString n)

/-- `SlurmOptions.add_dependencies` (src/slurminade/options.py lines
28-47).  The in-place mutation of `self` (and of a nested dependency
mapping) is modelled by returning the updated option set; `+=` on a
non-string nested entry raises `TypeError` in Python. -/
def addDependencies (opts : OptEntries) (jobIds : List (Option Int))
    (method : String) : Except String OptEntries :=
  let joined := joinIds jobIds
  let opt := method ++ ":" ++ joined
  match assocLookup opts.toList "dependency" with
  | some (.dict d) =>
      (match assocLookup d.toList method with
       | some (.str s) =>
           .ok (OptEntries.ofList (assocSet opts.toList "dependency"
             (.dict (OptEntries.ofList
               (assocSet d.toList method (.str (s ++ ":" ++ joined)))))))
       | some _ => .error "TypeError"
       | none =>
           .ok (OptEntries.ofList (assocSet opts.toList "dependency"
             (.dict (OptEntries.ofList
               (assocSet d.toList method (.str joined)))))))
  | some (.str s) =>
      .ok (OptEntries.ofList (assocSet opts.toList "dependency"
        (.str (s ++ "," ++ opt))))
  | some _ => .error "Key 'dependency' has unexpected type."
  | none =>
      .ok (OptEntries.ofList (assocSet opts.toList "dependency" (.str opt)))

/-- `SlurmFunction.wait_for` (src/slurminade/function.py lines 58-94),
after the job references have been normalized to a list.  A job
reference contributes `get_job_id()`, an `Option Int`.  Validation: an
empty list, or a reference whose job id is `None`, is rejected when the
active dispatcher is not sequential — *before* `add_dependencies` touches
any option; the derived wrapper's options are a copy
(`SlurmOptions(**...)`), so the original function's options are never
modified.  When validation passes, the ids are handed to
`add_dependencies`. -/
def waitFor (sequential : Bool) (opts : OptEntries)
    (jobIds : List (Option Int)) (method : String) : Except String OptEntries :=
  if jobIds.isEmpty ∧ sequential = false then
    .error "Creating a dependency on an empty list of job ids."
  else if (jobIds.any fun j => j.isNone) ∧ sequential = false then
    .error "Invalid job id."
  else addDependencies opts jobIds method

/-! ## Wire protocol

(src/slurminade/function_call.py, execute_cmds.py, execute.py,
dispatcher.py)

The JSON-like value model of the wire payload.  Error-message strings in
the embedding are abbreviated to their identifying first sentence. -/

mutual

/-- A JSON value (`null`, `bool`, integer, string, array, object).  The
source's payloads are JSON; floats are outside the embedded fragment. -/
inductive JVal where
  | null
  | jbool (b : Bool)
  | jint (n : Int)
  | jstr (s : String)
  | jarr (elems : JList)
  | jobj (fields : JFields)
  deriving DecidableEq

/-- A JSON array body. -/
inductive JList where
  | nil
  | cons (head : JVal) (tail : JList)
  deriving DecidableEq

/-- A JSON object body (ordered fields). -/
inductive JFields where
  | nil
  | cons (key : String) (val : JVal) (rest : JFields)
  deriving DecidableEq

end

/-- The double-quote character. -/
def dq : Char := Char.ofNat 34

/-- The single-quote character. -/
def sq : Char := Char.ofNat 39

/-- The opening-brace character. -/
def obr : Char := Char.ofNat 123

/-- The closing-brace character. -/
def cbr : Char := Char.ofNat 125

/-- Lower-case hex digit. -/
def hexDigit (n : Nat) : Char :=
  if n < 10 then Char.ofNat (48 + n) else Char.ofNat (87 + n)

/-- Four-digit hex rendering for `\uXXXX` escapes. -/
def hex4 (n : Nat) : String :=
  String.mk [hexDigit (n / 4096 % 16), hexDigit (n / 256 % 16),
    hexDigit (n / 16 % 16), hexDigit (n % 16)]

/-- `json.dumps` escaping of one string character (ASCII fragment;
`ensure_ascii` escaping of non-ASCII characters is not modelled — the
embedded payloads are ASCII). -/
def jsonEscapeChar (c : Char) : String :=
  if c = dq then String.mk ['\\', dq]
  else if c = '\\' then "\\\\"
  else if c = Char.ofNat 10 then "\\n"
  else if c = Char.ofNat 9 then "\\t"
  else if c = Char.ofNat 13 then "\\r"
  else if c = Char.ofNat 8 then "\\b"
  else if c = Char.ofNat 12 then "\\f"
  else if c.toNat < 32 then "\\u" ++ hex4 c.toNat
  else String.mk [c]

/-- `json.dumps` rendering of a string literal. -/
def jsonQuoteString (s : String) : String :=
  String.mk [dq] ++ String.join (s.data.map jsonEscapeChar) ++ String.mk [dq]

mutual

/-- `json.dumps` with CPython's default separators (`", "` and `": "`). -/
def jsonDumps : JVal → String
  | .null => "null"
  | .jbool b => if b then "true" else "false"
  | .jint n => toString n
  | .jstr s => jsonQuoteString s
  | .jarr es => "[" ++ jsonDumpsList es ++ "]"
  | .jobj fs => String.mk [obr] ++ jsonDumpsFields fs ++ String.mk [cbr]

/-- Array elements, `", "`-separated. -/
def jsonDumpsList : JList → String
  | .nil => ""
  | .cons v rest => jsonDumps v ++ jsonDumpsListRest rest

/-- Trailing array elements, each preceded by `", "`. -/
def jsonDumpsListRest : JList → String
  | .nil => ""
  | .cons v rest => ", " ++ jsonDumps v ++ jsonDumpsListRest rest

/-- Object fields, `", "`-separated, `": "` between key and value. -/
def jsonDumpsFields : JFields → String
  | .nil => ""
  | .cons k v rest =>
      jsonQuoteString k ++ ": " ++ jsonDumps v ++ jsonDumpsFieldsRest rest

/-- Trailing object fields, each preceded by `", "`. -/
def jsonDumpsFieldsRest : JFields → String
  | .nil => ""
  | .cons k v rest =>
      ", " ++ jsonQuoteString k ++ ": " ++ jsonDumps v ++ jsonDumpsFieldsRest rest

end

/-! ### `json.loads` (recursive-descent parser, fuel-bounded)

Used by `execute.parse_args`; none of the theorems depend on it, it is
part of the embedding of the node-side decode step. -/

/-- Skip JSON whitespace. -/
def skipWs : List Char → List Char
  | c :: rest =>
      if c = ' ' ∨ c = Char.ofNat 9 ∨ c = Char.ofNat 10 ∨ c = Char.ofNat 13 then
        skipWs rest
      else c :: rest
  | [] => []

/-- One hex digit. -/
def unhexDigit (c : Char) : Option Nat :=
  if 48 ≤ c.toNat ∧ c.toNat ≤ 57 then some (c.toNat - 48)
  else if 97 ≤ c.toNat ∧ c.toNat ≤ 102 then some (c.toNat - 87)
  else if 65 ≤ c.toNat ∧ c.toNat ≤ 70 then some (c.toNat - 55)
  else none

/-- Parse a JSON string body (after the opening quote), fuel-bounded. -/
def parseStringBody : Nat → List Char → List Char → Option (String × List Char)
  | 0, _, _ => none
  | _ + 1, acc, c :: rest =>
      if c = dq then some (String.mk acc.reverse, rest)
      else if c = '\\' then
        match rest with
        | e :: rest2 =>
            if e = dq then parseStringBody rest2.length.succ (dq :: acc) rest2
            else if e = '\\' then parseStringBody rest2.length.succ ('\\' :: acc) rest2
            else if e = '/' then parseStringBody rest2.length.succ ('/' :: acc) rest2
            else if e = 'n' then parseStringBody rest2.length.succ (Char.ofNat 10 :: acc) rest2
            else if e = 't' then parseStringBody rest2.length.succ (Char.ofNat 9 :: acc) rest2
            else if e = 'r' then parseStringBody rest2.length.succ (Char.ofNat 13 :: acc) rest2
            else if e = 'b' then parseStringBody rest2.length.succ (Char.ofNat 8 :: acc) rest2
            else if e = 'f' then parseStringBody rest2.length.succ (Char.ofNat 12 :: acc) rest2
            else if e = 'u' then
              match rest2 with
              | h1 :: h2 :: h3 :: h4 :: rest3 =>
                  match unhexDigit h1, unhexDigit h2, unhexDigit h3, unhexDigit h4 with
                  | some a, some b, some c, some d =>
                      parseStringBody rest3.length.succ
                        (Char.ofNat (a * 4096 + b * 256 + c * 16 + d) :: acc) rest3
                  | _, _, _, _ => none
              | _ => none
            else none
        | [] => none
      else parseStringBody rest.length.succ (c :: acc) rest
  | _ + 1, _, [] => none

/-- Parse a JSON integer (the embedded numeric fragment; floats fail). -/
def parseIntTok (cs : List Char) : Option (Int × List Char) :=
  let (neg, cs') := match cs with
    | '-' :: rest => (true, rest)
    | _ => (false, cs)
  let ds := cs'.takeWhile (·.isDigit)
  let rest := cs'.dropWhile (·.isDigit)
  if ds.isEmpty then none
  else match rest with
    | '.' :: _ => none
    | 'e' :: _ => none
    | 'E' :: _ => none
    | _ =>
        let n : Nat := ds.foldl (fun a c => a * 10 + (c.toNat - 48)) 0
        some (if neg then -(Int.ofNat n) else Int.ofNat n, rest)

mutual

/-- `json.loads`, value level: fuel-bounded recursive descent. -/
def parseJ : Nat → List Char → Option (JVal × List Char)
  | 0, _ => none
  | fuel + 1, cs =>
      match skipWs cs with
      | 'n' :: 'u' :: 'l' :: 'l' :: rest => some (.null, rest)
      | 't' :: 'r' :: 'u' :: 'e' :: rest => some (.jbool true, rest)
      | 'f' :: 'a' :: 'l' :: 's' :: 'e' :: rest => some (.jbool false, rest)
      | c :: rest =>
          if c = dq then
            (parseStringBody rest.length.succ [] rest).map fun p => (.jstr p.1, p.2)
          else if c = '[' then
            match skipWs rest with
            | ']' :: rest2 => some (.jarr .nil, rest2)
            | cs2 => (parseArrItems fuel cs2).map fun p => (.jarr p.1, p.2)
          else if c = obr then
            match skipWs rest with
            | c2 :: rest2 =>
                if c2 = cbr then some (.jobj .nil, rest2)
                else (parseObjItems fuel (c2 :: rest2)).map fun p => (.jobj p.1, p.2)
            | [] => none
          else
            (parseIntTok (c :: rest)).map fun p => (.jint p.1, p.2)
      | [] => none

/-- Array items after `[`, at a value position. -/
def parseArrItems : Nat → List Char → Option (JList × List Char)
  | 0, _ => none
  | fuel + 1, cs => do
      let (v, rest) ← parseJ fuel cs
      match skipWs rest with
      | ',' :: rest2 => (parseArrItems fuel rest2).map fun p => (.cons v p.1, p.2)
      | ']' :: rest2 => some (.cons v .nil, rest2)
      | _ => none

/-- Object items after the opening brace, at a key position. -/
def parseObjItems : Nat → List Char → Option (JFields × List Char)
  | 0, _ => none
  | fuel + 1, cs =>
      match skipWs cs with
      | c :: rest =>
          if c = dq then do
            let (k, rest2) ← parseStringBody rest.length.succ [] rest
            match skipWs rest2 with
            | ':' :: rest3 => do
                let (v, rest4) ← parseJ fuel rest3
                match skipWs rest4 with
                | ',' :: rest5 =>
                    (parseObjItems fuel rest5).map fun p => (.cons k v p.1, p.2)
                | c2 :: rest5 =>
                    if c2 = cbr then some (.cons k v .nil, rest5) else none
                | [] => none
            | _ => none
          else none
      | [] => none

end

/-- `json.loads` on a whole document. -/
def jsonLoads (s : String) : Option JVal := do
  let (v, rest) ← parseJ (2 * s.length + 2) s.data
  if (skipWs rest).isEmpty then some v else none

/-! ### `shlex.quote` and the command token model

`create_slurminade_command` builds one shell command *string* out of
whitespace-separated pieces, `shlex.quote`-ing the entry point and the
serialized calls; every consumer splits it again with POSIX-shell word
splitting (`shlex.split` in `TestDispatcher._cleanup`, the shell on a
node).  `shlex.quote`/`shlex.split` round-trip each piece, so the
embedding represents a command directly as its token list — the list
POSIX splitting recovers — while the *length* test of
`create_slurminade_command` is taken on the quoted string, exactly as in
the source. -/

/-- The characters `shlex.quote` treats as safe: ASCII letters, digits,
and `_ @ % + = : , .` plus slash and hyphen. -/
def shlexSafeChar (c : Char) : Bool :=
  c.isAlphanum ∨ c = '_' ∨ c = '@' ∨ c = '%' ∨ c = '+' ∨ c = '=' ∨
    c = ':' ∨ c = ',' ∨ c = '.' ∨ c = '/' ∨ c = '-'

/-- `shlex.quote`: empty and unsafe strings are wrapped in single quotes,
with embedded single quotes rendered as `'"'"'`. -/
def shlexQuote (s : String) : String :=
  if s = "" then String.mk [sq, sq]
  else if s.data.all shlexSafeChar then s
  else
    String.mk [sq] ++
      String.join (s.data.map fun c =>
        if c = sq then String.mk [sq, dq, sq, dq, sq] else String.mk [c]) ++
    String.mk [sq]

/-- A `FunctionCall` (src/slurminade/function_call.py): identity plus
positional and keyword argument payload. -/
structure FunctionCallW where
  funcId : String
  args : JList
  kwargs : JFields
  deriving DecidableEq

/-- `FunctionCall.to_json` (src/slurminade/function_call.py lines 14-19):
`{"func_id": ..., "args": ..., "kwargs": ...}`. -/
def functionCallToJson (fc : FunctionCallW) : JVal :=
  .jobj (.cons "func_id" (.jstr fc.funcId)
    (.cons "args" (.jarr fc.args)
      (.cons "kwargs" (.jobj fc.kwargs) .nil)))

/-- Turn a Lean list of JSON values into a `JList`. -/
def jlistOf : List JVal → JList
  | [] => .nil
  | v :: rest => .cons v (jlistOf rest)

/-- The serialized payload of a list of calls:
`json.dumps([f.to_json() for f in funcs])`. -/
def serializeCalls (funcs : List FunctionCallW) : String :=
  jsonDumps (.jarr (jlistOf (funcs.map functionCallToJson)))

/-- A filesystem snapshot: path ↦ text content. -/
def Fs : Type := List (String × String)

/-- `create_slurminade_command` (src/slurminade/execute_cmds.py lines
18-53).  `tmpName` is the fresh name `mkstemp` would produce.  Fails when
the entry point does not exist; serializes the calls; when the
`shlex.quote`d payload exceeds `max_arg_length`, writes the payload to the
temporary file and emits `--fromfile <tmpName>`, else emits the payload
inline after `--calls`.  Returns the command's token list (see above) and
the filesystem afterwards. -/
def createSlurminadeCommand (fs : Fs) (tmpName : String) (entryPoint : String)
    (funcs : List FunctionCallW) (maxArgLength : Nat) :
    Except String (List String × Fs) :=
  if (assocLookup fs entryPoint).isNone then
    .error ("Entry point " ++ entryPoint ++ " does not exist.")
  else
    let jsonCalls := serializeCalls funcs
    let serialized := shlexQuote jsonCalls
    if serialized.length > maxArgLength then
      .ok (["python", "-m", "slurminade.execute", "--root", entryPoint,
            "--fromfile", tmpName],
           assocSet fs tmpName jsonCalls)
    else
      .ok (["python", "-m", "slurminade.execute", "--root", entryPoint,
            "--calls", jsonCalls],
           fs)

/-- `sys.argv` of the worker process launched by a command
`python -m slurminade.execute <arguments>`: element 0 is the path of the
executed module file, the rest are the arguments after the module name. -/
def workerArgv (cmdToks : List String) : List String :=
  "slurminade/execute.py" :: cmdToks.drop 3

/-- A JSON array body as a Lean list. -/
def jlistToList : JList → List JVal
  | .nil => []
  | .cons v rest => v :: jlistToList rest

/-- `execute.parse_args` (src/slurminade/execute.py lines 14-43): reads
`sys.argv[1]` as the batch (entry-point) file — which must exist —
`sys.argv[2]` as the payload mode, which must be the literal `"arg"`
(inline JSON in `sys.argv[3]`) or `"temp"` (path of a JSON file in
`sys.argv[3]`, deleted right after a successful read, before the
list-shaped assertion on the payload); anything else is rejected.
Returns the outcome — on success the batch file and the decoded call
list (a JSON array) — together with the filesystem afterwards. -/
def parseArgs (fs : Fs) (argv : List String) :
    Except String (String × List JVal) × Fs :=
  match argv[1]? with
  | none => (.error "IndexError: list index out of range", fs)
  | some batchFile =>
    if (assocLookup fs batchFile).isNone then
      (.error ("Batch file does not exist.\n File: " ++ batchFile ++
        "\nThis should not happen. Please report this bug."), fs)
    else
      match argv[2]? with
      | none => (.error "IndexError: list index out of range", fs)
      | some mode =>
        if mode = "arg" then
          match argv[3]? with
          | none => (.error "IndexError: list index out of range", fs)
          | some payload =>
              match jsonLoads payload with
              | some (.jarr es) => (.ok (batchFile, jlistToList es), fs)
              | some _ => (.error "AssertionError: Expected a list of dicts", fs)
              | none => (.error "json.JSONDecodeError", fs)
        else if mode = "temp" then
          match argv[3]? with
          | none => (.error "IndexError: list index out of range", fs)
          | some tmpPath =>
              match assocLookup fs tmpPath with
              | none =>
                  (.error ("Using temporary file for passing function arguments, but file does not exist.\n File: "
                    ++ tmpPath ++ "\nThis should not happen. Please report this bug."), fs)
              | some content =>
                  match jsonLoads content with
                  | some (.jarr es) =>
                      (.ok (batchFile, jlistToList es), assocErase fs tmpPath)
                  | some _ =>
                      (.error "AssertionError: Expected a list of dicts",
                       assocErase fs tmpPath)
                  | none => (.error "json.JSONDecodeError", fs)
        else
          (.error ("Unknown function call mode. Expected arg or temp.\n Got: "
            ++ mode ++ "\nThis should not happen. Please report this bug."), fs)

/-- `TestDispatcher._cleanup` (src/slurminade/dispatcher.py lines
174-180): split the command, and only when the second-to-last token is the
literal `"temp"` delete the file named by the last token. -/
def testDispatcherCleanup (fs : Fs) (cmdToks : List String) : Fs :=
  match cmdToks[cmdToks.length - 2]?, cmdToks[cmdToks.length - 1]? with
  | some marker, some filename =>
      if marker = "temp" then assocErase fs filename else fs
  | _, _ => fs

/-! ## Flush logging

`JobBundling.flush` (src/slurminade/bundling.py lines 81-99) performs, per
submission, one info-level log line (`Dispatcher.__call__` calls
`self._log_dispatch`, src/slurminade/dispatcher.py lines 86-113).  Its
body contains no warning-level logging, and neither `JobBundling.__init__`
nor `flush` creates or calls a `BatchGuard` — `BatchGuard.report_flush` has
no caller anywhere in the package. -/

/-- A log event observable during one `flush()`. -/
inductive FlushLogEvent (K C : Type) where
  | info (key : K) (chunk : List C)
  | warning (msg : String)
  deriving DecidableEq

/-- The log events one `JobBundling.flush()` emits, per the source: one
info line per submission performed and nothing else. -/
def flushLogEvents {K C : Type} (k : Nat) (buf : List (K × List C)) :
    Option (List (FlushLogEvent K C)) :=
  (flushPlan k buf).map (List.map fun p => .info p.1 p.2)

/-- Total number of buffered calls. -/
def totalBufferedTasks {K C : Type} (buf : List (K × List C)) : Nat :=
  (buf.map fun kv => kv.2.length).sum

/-- Modelled from the spec (§4.3, §4.5): the spec states that `flush()`
reports each flush to a per-instance repeated-flush guard, which on the
second non-empty flush emits the one-time (globally suppressible) warning
without blocking the submissions.  The source's `flush` never invokes
`BatchGuard.report_flush`; this definition follows the spec's words, to be
compared with `flushLogEvents` above. -/
def flushAsSpecified {K C : Type} (g : BatchGuardState) (k : Nat)
    (buf : List (K × List C)) :
    Option (List (FlushLogEvent K C) × BatchGuardState) :=
  (flushPlan k buf).map fun plan =>
    let (g', warned) := reportFlush g (totalBufferedTasks buf)
    ((plan.map fun p => .info p.1 p.2)
      ++ (if warned then [.warning "repeated flush"] else []), g')

/-! ## Helper lemmas -/

/-- The submission loop with an always-succeeding sub-dispatcher submits
everything, one result per submission, in order. -/
theorem submitAll_ok {P E : Type} : (l : List P) →
    submitAll (fun p => (Except.ok p : Except E P)) l = .ok l
  | [] => rfl
  | p :: rest => by simp [submitAll, submitAll_ok rest]

/-- Whatever the loop submitted before a failure was part of the plan. -/
theorem mem_of_mem_submittedPrefix {P E R : Type} {sub : P → Except E R} :
    ∀ {l : List P} {p : P}, p ∈ submittedPrefix sub l → p ∈ l := by
  intro l
  induction l with
  | nil => intro p h; simp [submittedPrefix] at h
  | cons q rest ih =>
      intro p h
      unfold submittedPrefix at h
      cases hq : sub q with
      | ok r =>
          rw [hq] at h
          rcases List.mem_cons.mp h with h | h
          · exact h ▸ List.mem_cons_self _ _
          · exact List.mem_cons_of_mem _ (ih h)
      | error e => rw [hq] at h; simp at h

/-- `flush` on a single-key buffer: the planned submissions are exactly
the in-order chunks of the buffered sequence. -/
theorem flushPlan_single {K C : Type} (key : K) (tasks : List C) {k : Nat}
    (hk : 1 ≤ k) :
    ∃ plan : List (K × List C),
      flushPlan k [(key, tasks)] = some plan ∧
      plan.length = (tasks.length + k - 1) / k ∧
      (∀ p ∈ plan, p.1 = key ∧ p.2.length ≤ k ∧ p.2 ≠ []) ∧
      (plan.map fun p => p.2).flatten = tasks := by
  by_cases hempty : tasks.isEmpty
  · refine ⟨[], ?_, ?_, by simp, ?_⟩
    · simp [flushPlan, hempty]
    · rw [List.isEmpty_iff] at hempty
      subst hempty
      obtain ⟨k', rfl⟩ : ∃ k', k = k' + 1 := ⟨k - 1, by omega⟩
      simpa using (Nat.div_eq_of_lt (Nat.lt_succ_self k')).symm
    · rw [List.isEmpty_iff] at hempty
      simp [hempty]
  · obtain ⟨chunks, hrun, hjoin, hbound, hcount⟩ :=
      whileChunks_spec hk tasks.length tasks (Nat.le_refl _)
    refine ⟨chunks.map fun c => (key, c), ?_, ?_, ?_, ?_⟩
    · simp only [flushPlan, hempty, Bool.false_eq_true, if_false, hrun,
        Option.bind_eq_bind, Option.some_bind]
      simp [flushPlan]
    · simp [hcount]
    · intro p hp
      obtain ⟨c, hc, rfl⟩ := List.mem_map.mp hp
      exact ⟨rfl, (hbound c hc).1, (hbound c hc).2⟩
    · simp only [List.map_map]
      simpa using hjoin

/-- Running the dispatch guard with a positive limit: while the remaining
count covers the attempts, every attempt succeeds and the count drops by
one per attempt. -/
theorem guardCalls_within {m : Int} (hm : ¬ m = 0) :
    ∀ (n : Nat) (rem : Int), (n : Int) ≤ rem →
      (guardCalls ⟨some m, rem⟩ n).1 = ⟨some m, rem - n⟩ ∧
      ∀ r ∈ (guardCalls ⟨some m, rem⟩ n).2, ∃ v, r = .ok v := by
  intro n
  induction n with
  | zero =>
      intro rem _
      exact ⟨by simp [guardCalls], by simp [guardCalls]⟩
  | succ n ih =>
      intro rem hrem
      have hpos : ¬ rem ≤ 0 := by
        push_neg
        have : (0 : Int) < (n : Int) + 1 := by positivity
        omega
      have hstep : guardCall ⟨some m, rem⟩
          = (.ok (some (rem - 1)), ⟨some m, rem - 1⟩) := by
        simp [guardCall, hm, hpos]
      have hn : (n : Int) ≤ rem - 1 := by
        have : ((n : Int) + 1) ≤ rem := by exact_mod_cast hrem
        omega
      obtain ⟨hstate, hok⟩ := ih (rem - 1) hn
      constructor
      · simp only [guardCalls, hstep]
        rw [hstate]
        congr 1
        omega
      · intro r hr
        simp only [guardCalls, hstep] at hr
        rcases List.mem_cons.mp hr with h | h
        · exact ⟨some (rem - 1), h⟩
        · exact hok r h

/-- With the limit disabled (`None`), every attempt succeeds. -/
theorem guardCalls_none (rem : Int) :
    ∀ n : Nat, ∀ r ∈ (guardCalls ⟨none, rem⟩ n).2, r = .ok none := by
  intro n
  induction n with
  | zero => simp [guardCalls]
  | succ n ih =>
      intro r hr
      simp only [guardCalls, guardCall] at hr
      rcases List.mem_cons.mp hr with h | h
      · exact h
      · exact ih r h

/-! ## The claims -/

/-- Claim C1: for a buffer holding `N` calls under one single
`(entry_point, options)` key and any configured `max_size = k ≥ 1`,
`flush()` performs exactly `⌈N / k⌉` submissions to the sub-dispatcher,
each carrying at most `k` calls, the submitted chunks concatenate in
submission order to the original buffered sequence, and `flush()` returns
one job reference per submission of this call (here the sub-dispatcher
returns the submission itself as its reference, so the returned list *is*
the submission list). -/
theorem claim_C1_chunking {K C : Type} (key : K) (tasks : List C) (k : Nat)
    (hk : 1 ≤ k) :
    ∃ plan : List (K × List C),
      flushOnce (fun p => (Except.ok p : Except Unit (K × List C))) k
          [(key, tasks)]
        = some (.ok plan, []) ∧
      plan.length = (tasks.length + k - 1) / k ∧
      (∀ p ∈ plan, p.1 = key ∧ p.2.length ≤ k) ∧
      (plan.map fun p => p.2).flatten = tasks := by
  obtain ⟨plan, hplan, hlen, hmem, hcat⟩ := flushPlan_single key tasks hk
  refine ⟨plan, ?_, hlen, fun p hp => ⟨(hmem p hp).1, (hmem p hp).2.1⟩, hcat⟩
  simp [flushOnce, hplan, submitAll_ok]

/-- Claim C1, witness: 5 calls bundled with `max_size = 2` flush as
exactly 3 submissions covering all calls in order. -/
theorem claim_C1_chunking_witness :
    ∃ plan : List (Nat × List Nat),
      flushOnce (fun p => (Except.ok p : Except Unit (Nat × List Nat))) 2
          [((0 : Nat), [10, 11, 12, 13, 14])]
        = some (.ok plan, []) ∧
      plan.length = (([10, 11, 12, 13, 14] : List Nat).length + 2 - 1) / 2 ∧
      (∀ p ∈ plan, p.1 = 0 ∧ p.2.length ≤ 2) ∧
      (plan.map fun p => p.2).flatten = [10, 11, 12, 13, 14] :=
  claim_C1_chunking 0 [10, 11, 12, 13, 14] 2 (by decide)

/-- Claim C2 (code bug): the wire round trip is broken.  The command
builder emits flag-style tokens
`--root <entry> --calls <payload>` (src/slurminade/execute_cmds.py), but
the node bootstrap parser reads positional arguments
`<entry> arg|temp <payload>` (src/slurminade/execute.py): on the worker,
`sys.argv[1]` is the literal `--root`, whose existence check fails, so
decoding raises instead of invoking the original call. -/
theorem claim_C2_roundtrip_broken :
    createSlurminadeCommand [("/main.py", "source text")]
        "./slurminade_t.json" "/main.py"
        [⟨"/main.py:f", .cons (.jint 1) .nil, .nil⟩] 100000
      = .ok (["python", "-m", "slurminade.execute", "--root", "/main.py",
              "--calls",
              serializeCalls [⟨"/main.py:f", .cons (.jint 1) .nil, .nil⟩]],
             [("/main.py", "source text")]) ∧
    parseArgs [("/main.py", "source text")]
        (workerArgv ["python", "-m", "slurminade.execute", "--root",
          "/main.py", "--calls",
          serializeCalls [⟨"/main.py:f", .cons (.jint 1) .nil, .nil⟩]])
      = (.error ("Batch file does not exist.\n File: --root\nThis should not happen. Please report this bug."),
         [("/main.py", "source text")]) :=
  ⟨rfl, rfl⟩

/-- Claim C3 (counterexample): `SlurmOptions.__eq__` compares hashes, and
CPython hashes collide: `hash(-1) == hash(-2) == -2`, so the option sets
`a = -1` and `a = -2` compare equal although their key/value content
differs — equality does *not* coincide with recursive structural
equality. -/
theorem claim_C3_eq_counterexample :
    slurmOptionsEq (.cons "a" (.int (-1)) .nil) (.cons "a" (.int (-2)) .nil)
        = true ∧
    contentEq (.cons "a" (.int (-1)) .nil) (.cons "a" (.int (-2)) .nil)
        = false :=
  ⟨rfl, by decide⟩

/-- Claim C3, amended: for `SlurmOptions` operands, `__eq__` returns
`True` exactly when the two hashes coincide; identical recursive
key/value content implies equality, but the converse fails on hash
collisions (see the counterexample). -/
theorem claim_C3_eq_amended (a b : OptEntries) :
    (slurmOptionsEq a b = true ↔ slurmOptionsHash a = slurmOptionsHash b) ∧
    (contentEq a b = true → slurmOptionsEq a b = true) :=
  ⟨by simp [slurmOptionsEq], fun h => slurmOptionsEq_of_contentEq h⟩

/-- Claim C3, witness: two option sets with the same entries in a
different order compare equal. -/
theorem claim_C3_eq_amended_witness :
    slurmOptionsEq
        (.cons "p" (.int 1) (.cons "q" (.str "x") .nil))
        (.cons "q" (.str "x") (.cons "p" (.int 1) .nil))
      = true :=
  (claim_C3_eq_amended
      (.cons "p" (.int 1) (.cons "q" (.str "x") .nil))
      (.cons "q" (.str "x") (.cons "p" (.int 1) .nil))).2 (by decide)

/-- Claim C4 (code bug): a payload whose quoted serialization exceeds the
maximum argument length is moved to a temporary file referenced by
`--fromfile` and is not embedded inline — but the test-capture
dispatcher's cleanup only deletes the file when the second-to-last token
is the positional marker `temp`, which the builder never emits, so the
temporary file still exists after the dispatcher processed the command. -/
theorem claim_C4_tempfile_survives :
    createSlurminadeCommand [("/main.py", "source text")]
        "./slurminade_t.json" "/main.py"
        [⟨"/main.py:f", .cons (.jint 1) .nil, .nil⟩] 10
      = .ok (["python", "-m", "slurminade.execute", "--root", "/main.py",
              "--fromfile", "./slurminade_t.json"],
             [("/main.py", "source text"),
              ("./slurminade_t.json",
                serializeCalls [⟨"/main.py:f", .cons (.jint 1) .nil, .nil⟩])]) ∧
    (["python", "-m", "slurminade.execute", "--root", "/main.py",
      "--fromfile", "./slurminade_t.json"].contains
        (serializeCalls [⟨"/main.py:f", .cons (.jint 1) .nil, .nil⟩]) = false) ∧
    testDispatcherCleanup
        [("/main.py", "source text"),
         ("./slurminade_t.json",
           serializeCalls [⟨"/main.py:f", .cons (.jint 1) .nil, .nil⟩])]
        ["python", "-m", "slurminade.execute", "--root", "/main.py",
         "--fromfile", "./slurminade_t.json"]
      = [("/main.py", "source text"),
         ("./slurminade_t.json",
           serializeCalls [⟨"/main.py:f", .cons (.jint 1) .nil, .nil⟩])] ∧
    assocLookup
        (testDispatcherCleanup
          [("/main.py", "source text"),
           ("./slurminade_t.json",
             serializeCalls [⟨"/main.py:f", .cons (.jint 1) .nil, .nil⟩])]
          ["python", "-m", "slurminade.execute", "--root", "/main.py",
           "--fromfile", "./slurminade_t.json"])
        "./slurminade_t.json"
      = some (serializeCalls [⟨"/main.py:f", .cons (.jint 1) .nil, .nil⟩]) :=
  ⟨rfl, by decide, rfl, rfl⟩

/-- Claim C5 (counterexample): the claim fails for the limit `L = 0`.
`_DispatchGuard.__call__` begins with `if not self.max_calls`, and `0` is
falsy in Python, so a limit of `0` means *unlimited*: the first attempt —
which the claim requires to fail with dispatch-limit-exceeded — succeeds,
as does every further attempt. -/
theorem claim_C5_limit_counterexample :
    (guardCall (guardInit (some 0))).1 = .ok none ∧
    ∀ r ∈ (guardCalls (guardInit (some 0)) 5).2, r = .ok none := by
  refine ⟨rfl, fun r hr => ?_⟩
  have h5 : (guardCalls (guardInit (some 0)) 5).2
      = List.replicate 5 (.ok none) := rfl
  rw [h5] at hr
  exact List.eq_of_mem_replicate hr

/-- Claim C5, amended: for every limit `L ≥ 1`, starting from a fresh
counter exactly `L` dispatch attempts succeed, the `(L+1)`-th fails with a
dispatch-limit-exceeded error carrying the configured limit `L` and a
message naming it; after setting the limit to the unlimited value `None`,
every subsequent attempt succeeds.  (A limit of `0`, like `None`, is
treated as unlimited by the falsy test — see the counterexample.) -/
theorem claim_C5_limit_amended (L : Nat) (hL : 1 ≤ L) :
    (∀ r ∈ (guardCalls (guardInit (some (L : Int))) L).2, ∃ v, r = .ok v) ∧
    (guardCall ((guardCalls (guardInit (some (L : Int))) L).1)).1
        = .error ⟨(L : Int)⟩ ∧
    tooManyMessage ⟨(L : Int)⟩
        = "Exceeded the dispatch limit of " ++ toString (L : Int) ++
          " calls. This limit has been introduced to prevent you from overloading your slurm environment in case of a bug. You can increase it using `set_dispatch_limit`." ∧
    ∀ (s : DispatchGuardState) (n : Nat),
      ∀ r ∈ (guardCalls (setLimit s none) n).2, r = .ok none := by
  have hm : ¬ ((L : Int) = 0) := by
    simp only [Int.natCast_eq_zero]
    omega
  obtain ⟨hstate, hok⟩ :=
    guardCalls_within hm L (L : Int) (le_refl _)
  refine ⟨hok, ?_, ?_, ?_⟩
  · have hzero : ((L : Int) - (L : Int)) = 0 := by ring
    rw [show guardInit (some (L : Int)) = ⟨some (L : Int), (L : Int)⟩ from rfl,
      hstate, hzero]
    simp [guardCall, hm]
  · simp [tooManyMessage]
  · intro s n
    exact guardCalls_none _ n

/-- Claim C5, witness: with limit 3 the fourth attempt fails with the
error naming 3. -/
theorem claim_C5_limit_amended_witness :
    (guardCall ((guardCalls (guardInit (some (3 : Int))) 3).1)).1
      = .error ⟨(3 : Int)⟩ :=
  (claim_C5_limit_amended 3 (by decide)).2.1

/-- Claim C6 (code bug): the repeated-flush warning is never emitted by
`JobBundling.flush` — `BatchGuard.report_flush` has no caller in the
package — although `BatchGuard` itself behaves exactly as the claim
describes.  Concretely, over two successive non-empty flushes of one
bundling instance the source emits no warning at either flush, whereas
the spec-modelled flush (guard wired in, `flushAsSpecified`) emits the
warning exactly at the second; empty flushes are not counted, the global
suppression flag silences the warning, and the submissions of a flush are
unaffected by the guard. -/
theorem claim_C6_repeated_flush_warning :
    flushLogEvents 2 [((0 : Nat), [(10 : Nat)])]
        = some [.info 0 [10]] ∧
    flushLogEvents 2 [((0 : Nat), [(11 : Nat)])]
        = some [.info 0 [11]] ∧
    flushAsSpecified (batchGuardInit false) 2 [((0 : Nat), [(10 : Nat)])]
        = some ([.info 0 [10]], ⟨1, false⟩) ∧
    flushAsSpecified ⟨1, false⟩ 2 [((0 : Nat), [(11 : Nat)])]
        = some ([.info 0 [11], .warning "repeated flush"], ⟨2, true⟩) ∧
    reportFlush (batchGuardInit false) 0 = (batchGuardInit false, false) ∧
    reportFlush ⟨1, true⟩ 1 = (⟨2, true⟩, false) :=
  ⟨rfl, rfl, rfl, rfl, rfl, rfl⟩

/-- Claim C7 (counterexample): a job reference with a *negative* job id is
not rejected by `wait_for` on a non-sequential dispatcher — the code only
checks `get_job_id() is None` — and the dependency is added with the
negative id. -/
theorem claim_C7_waitfor_counterexample :
    waitFor false .nil [some (-7)] "afterany"
      = .ok (.cons "dependency" (.str "afterany:-7") .nil) := rfl

/-- Claim C7, amended: while the active dispatcher is not sequential,
`wait_for` rejects an empty list of job references, and any reference
whose job id is *missing* (`None`), with a usage error raised before any
option is modified; a negative id passes.  When the dispatcher is
sequential the validation is skipped and the request proceeds directly to
`add_dependencies`. -/
theorem claim_C7_waitfor_amended (opts : OptEntries)
    (jobIds : List (Option Int)) (method : String) :
    ((jobIds = [] ∨ none ∈ jobIds) →
      ∃ msg, waitFor false opts jobIds method = .error msg) ∧
    waitFor true opts jobIds method = addDependencies opts jobIds method := by
  constructor
  · intro h
    rcases h with h | h
    · subst h
      exact ⟨_, rfl⟩
    · by_cases hempty : jobIds.isEmpty
      · rw [List.isEmpty_iff] at hempty
        subst hempty
        exact ⟨_, rfl⟩
      · have hany : (jobIds.any fun j => j.isNone) = true :=
          List.any_eq_true.mpr ⟨none, h, rfl⟩
        refine ⟨"Invalid job id.", ?_⟩
        unfold waitFor
        simp [hempty, hany]
  · unfold waitFor
    simp

/-- Claim C7, witness: on a non-sequential dispatcher an empty dependency
list is rejected. -/
theorem claim_C7_waitfor_amended_witness :
    ∃ msg, waitFor false .nil ([] : List (Option Int)) "afterany"
      = .error msg :=
  (claim_C7_waitfor_amended .nil [] "afterany").1 (Or.inl rfl)

/-- Claim C8: registering a function whose computed identity is already
present in the registry fails, with overwrite disabled, with the
duplicate-identity error `Multiple function definitions!`, and the
registry is returned unchanged by the failed attempt (the error is raised
before the mapping is touched). -/
theorem claim_C8_duplicate_register {β : Type} (reg : List (String × β))
    (ep : Option String) (file name : String) (g : β) (funcId : String)
    (hc : checkCompatibility file name = .ok ())
    (hid : getId ep file name = .ok funcId)
    (hdup : (assocLookup reg funcId).isSome) :
    registerFunc reg ep file name g false
      = (.error "Multiple function definitions!", reg) := by
  unfold registerFunc
  rw [hc, hid]
  simp [hdup]

/-- Claim C8, witness: after `f` is registered under `/main.py:f`, a
second registration of the same identity with overwrite disabled fails
and leaves the registry unchanged. -/
theorem claim_C8_duplicate_register_witness :
    registerFunc [("/main.py:f", (0 : Nat))] none "/main.py" "f" 1 false
      = (.error "Multiple function definitions!", [("/main.py:f", 0)]) :=
  claim_C8_duplicate_register [("/main.py:f", (0 : Nat))] none "/main.py" "f"
    1 "/main.py:f" rfl rfl rfl

/-- Claim C9: two option sets with identical (possibly nested) key/value
content — irrespective of the order in which entries were inserted, and
with nested mappings built as plain mappings or as option sets (the model
does not distinguish them, as `_items` converts both identically) — have
equal `SlurmOptions.__hash__` values and compare equal under
`SlurmOptions.__eq__`. -/
theorem claim_C9_hash_of_content (a b : OptEntries)
    (h : contentEq a b = true) :
    slurmOptionsHash a = slurmOptionsHash b ∧ slurmOptionsEq a b = true :=
  ⟨slurmOptionsHash_eq_of_contentEq h, slurmOptionsEq_of_contentEq h⟩

/-- Claim C9, witness: reordered entries with a nested mapping whose own
entries are also reordered still hash and compare equal. -/
theorem claim_C9_hash_of_content_witness :
    slurmOptionsHash
        (.cons "p" (.int 1)
          (.cons "q" (.dict (.cons "x" (.int 2) (.cons "y" (.int 3) .nil)))
            .nil))
      = slurmOptionsHash
        (.cons "q" (.dict (.cons "y" (.int 3) (.cons "x" (.int 2) .nil)))
          (.cons "p" (.int 1) .nil)) ∧
    slurmOptionsEq
        (.cons "p" (.int 1)
          (.cons "q" (.dict (.cons "x" (.int 2) (.cons "y" (.int 3) .nil)))
            .nil))
        (.cons "q" (.dict (.cons "y" (.int 3) (.cons "x" (.int 2) .nil)))
          (.cons "p" (.int 1) .nil))
      = true :=
  claim_C9_hash_of_content
    (.cons "p" (.int 1)
      (.cons "q" (.dict (.cons "x" (.int 2) (.cons "y" (.int 3) .nil))) .nil))
    (.cons "q" (.dict (.cons "y" (.int 3) (.cons "x" (.int 2) .nil)))
      (.cons "p" (.int 1) .nil))
    (by decide)

/-- Claim C10: when the sub-dispatcher raises on some chunk during a
`flush()`, the task buffer is not cleared — `clear()` only runs after the
whole submission loop — so every buffered call survives, the chunks the
loop had already submitted successfully were all part of the plan that a
subsequent `flush()` of the preserved buffer submits *again* in full
(clearing is not atomic with respect to submission failure). -/
theorem claim_C10_flush_not_atomic {K C E R : Type}
    (sub : K × List C → Except E R) (k : Nat)
    (buf plan : List (K × List C)) (e : E)
    (hplan : flushPlan k buf = some plan)
    (herr : submitAll sub plan = .error e) :
    flushOnce sub k buf = some (.error e, buf) ∧
    (∀ p ∈ submittedPrefix sub plan, p ∈ plan) ∧
    flushOnce (fun p => (Except.ok p : Except E (K × List C))) k buf
      = some (.ok plan, []) := by
  refine ⟨?_, fun p hp => mem_of_mem_submittedPrefix hp, ?_⟩
  · simp [flushOnce, hplan, herr]
  · simp [flushOnce, hplan, submitAll_ok]

/-- Claim C10, witness: five buffered calls under one key, `max_size = 2`,
with the sub-dispatcher failing on the second chunk: the flush reports the
error, the buffer survives in full, and a retrying flush submits all three
chunks again — including the first chunk that had already been submitted
successfully. -/
theorem claim_C10_flush_not_atomic_witness :
    flushOnce
        (fun p : Nat × List Nat =>
          if p.2 = [12, 13] then (Except.error () : Except Unit Unit)
          else .ok ())
        2 [((0 : Nat), [10, 11, 12, 13, 14])]
      = some (.error (), [((0 : Nat), [10, 11, 12, 13, 14])]) :=
  (claim_C10_flush_not_atomic
    (fun p : Nat × List Nat =>
      if p.2 = [12, 13] then (Except.error () : Except Unit Unit) else .ok ())
    2 [((0 : Nat), [10, 11, 12, 13, 14])]
    [(0, [10, 11]), (0, [12, 13]), (0, [14])] ()
    rfl rfl).1

end Slurminade
